import Mathlib

/-!
Verification development for the asynchronous object-detection video
pipeline in `examples/metabase-object-detection-async-http-postgres/main.py`.

The script lists the extracted frame files of the input directory, batches
them, POSTs each batch to the detection service (aborting the process on a
non-200 response), asserts that the total number of returned mapping
indices equals the total number of submitted files, and then, for each
(filename, mapping index) pair, queries a PostgreSQL results store inside a
per-frame `try/except`, draws the detections, and writes the annotated
frame to the output directory; finally the output directory is re-encoded
into a video from the glob `*.png` in sorted filename order.

The embedding below models the filesystem directory as a list of named
entries, the detection service as a function from a batch to an HTTP
response, and the results store as a function from a mapping index to the
observable outcome of one query round trip; quantifying over the store
function captures every possible timing/availability behaviour of the
asynchronously filled store.
-/

/-! ### Python string comparison

Python compares strings lexicographically by code point.  `String.ltb` in
core does not reduce well inside the kernel, so the comparison is spelled
out over the character lists. -/

/-- Lexicographic comparison of character lists by code point, the order
Python uses to compare strings. -/
def lexLe : List Char → List Char → Bool
  | [], _ => true
  | _ :: _, [] => false
  | a :: as, b :: bs =>
    if a.toNat < b.toNat then true
    else if b.toNat < a.toNat then false
    else lexLe as bs

/-- Python `a <= b` on strings. -/
def pyLe (a b : String) : Bool := lexLe a.data b.data

/-- Python `sorted` on a list of strings (a stable sort; on a linear order
any sorted permutation is the same list, so `insertionSort` is an exact
model of the value `sorted` returns). -/
def pySorted (l : List String) : List String :=
  List.insertionSort (fun a b => pyLe a b = true) l

/-- Python `f.startswith(".")`. -/
def startsWithDot (f : String) : Bool :=
  match f.data with
  | '.' :: _ => true
  | _ => false

/-- Python `f.endswith(".png")`, which is what the ffmpeg glob `*.png` in
`generate_video_from_frames` selects on (globs also skip hidden files). -/
def endsWithPng (f : String) : Bool :=
  decide (f.data.reverse.take 4 = ('g' :: 'n' :: 'p' :: '.' :: []))

/-! ### Frame Source: `img_files` -/

/-- A directory entry as observed by `os.listdir`: its name, and whether
`os.path.isfile` holds of it (subdirectories and other non-regular entries
have `isfile = false`). -/
structure DirEntry where
  name : String
  isfile : Bool
deriving DecidableEq

/-- `os.path.isfile(join(image_dir, f))` over a directory modelled as a
list of entries. -/
def isfileIn (d : List DirEntry) (f : String) : Bool :=
  match d.find? (fun e => e.name = f) with
  | some e => e.isfile
  | none => false

/-- The frame list of the run:
`[f for f in sorted(listdir(image_dir)) if isfile(join(image_dir, f)) and not f.startswith(".")]`.
A frame's position is its index in this list. -/
def img_files (d : List DirEntry) : List String :=
  (pySorted (d.map DirEntry.name)).filter
    (fun f => isfileIn d f && !startsWithDot f)

/-! ### Batch Submitter: `img_batch` -/

/-- Fuel-indexed chunking; `fuel` only bounds the recursion depth (any
`fuel ≥ l.length` gives the same value), keeping the definition
structurally recursive and kernel-reducible. -/
def chunkFuel : Nat → Nat → List α → List (List α)
  | 0, _, _ => []
  | _ + 1, _, [] => []
  | fuel + 1, B, a :: l => ((a :: l).take B) :: chunkFuel fuel B (l.drop (B - 1))

/-- The batch list:
`img_batch = [img_files[i:i+batch_size] for i in range(0, len(img_files), batch_size)]`,
as a recursion that repeatedly takes the next `B` elements.  Meaningful for
`B ≥ 1` (a Python `range` step of `0` is an error; the script fixes
`batch_size = 1`). -/
def img_batch (B : Nat) (l : List α) : List (List α) :=
  chunkFuel l.length B l

/-! ### Result data model -/

/-- The `bounding_box` object of one detection row:
`{left, top, width, height}`. -/
structure BoundingBox where
  left : Int
  top : Int
  width : Int
  height : Int
deriving DecidableEq

/-- One element of the `detection.objects` list stored for a frame:
`{bounding_box, category, score}`. -/
structure DetectionObject where
  bounding_box : BoundingBox
  category : String
  score : Rat
deriving DecidableEq

/-- The tuple `parse_detection_from_database` returns: the three parallel
lists (boxes as `(left, top, width, height)`, category labels, scores)
that `draw_detection` consumes. -/
structure ParsedDetections where
  boxes_ltwh : List (Int × Int × Int × Int)
  categories : List String
  scores : List Rat
deriving DecidableEq

/-- `parse_detection_from_database`: splits the list of detection objects
into the three parallel lists. -/
def parse_detection_from_database (detection_ls : List DetectionObject) :
    ParsedDetections :=
  ⟨detection_ls.map (fun det => (det.bounding_box.left, det.bounding_box.top,
      det.bounding_box.width, det.bounding_box.height)),
   detection_ls.map (fun det => det.category),
   detection_ls.map (fun det => det.score)⟩

/-! ### Result Correlator: the per-frame fetch-and-draw loop -/

/-- The observable outcome of one per-frame results-store round trip in the
body of the `for filename, mapping_index in tzip(...)` loop:
`psycopg2.connect` may raise (store unreachable); `cur.fetchone()` may
return no row, so the `[0]` subscription raises (result not yet present);
the row may be malformed so parsing raises; or the query yields the
detection objects for the frame. -/
inductive QueryOutcome
  | connectFail
  | rowMissing
  | malformed
  | ok (dets : List DetectionObject)
deriving DecidableEq

/-- State threaded through the fetch-and-draw loop.  `conn` is the Python
variable `conn` (holding the id of the most recently opened connection, if
any); `opened` counts connections opened so far, the `i`-th opened
connection having id `i`; `queries` records each executed store query (by
mapping index, in order); `outputs` records each `cv2.imwrite` to the
output directory (filename with the parsed detections drawn onto the
frame); `errors` records each exception printed by the per-frame
`except` clause (by filename, in order); `closedConns` records each
explicit `conn.close()`. -/
structure CorrState where
  conn : Option Nat
  opened : Nat
  queries : List String
  outputs : List (String × ParsedDetections)
  errors : List String
  closedConns : List Nat
deriving DecidableEq

/-- `conn = None` before the loop; nothing opened, written or printed. -/
def initCorrState : CorrState := ⟨none, 0, [], [], [], []⟩

/-- One iteration of the fetch-and-draw loop on the pair
`p = (filename, mapping_index)`.  On a connection failure the exception is
caught before `conn` is reassigned; on a missing or malformed row the
connection was opened and the query executed before the exception is
caught; on success the parsed detections are drawn and the frame is
written, and only the cursor is closed (`cur.close()` — the connection
stays open in every branch). -/
def corrStep (store : String → QueryOutcome) (s : CorrState)
    (p : String × String) : CorrState :=
  match store p.2 with
  | .connectFail => { s with errors := s.errors ++ [p.1] }
  | .rowMissing =>
      { s with conn := some s.opened, opened := s.opened + 1,
               queries := s.queries ++ [p.2], errors := s.errors ++ [p.1] }
  | .malformed =>
      { s with conn := some s.opened, opened := s.opened + 1,
               queries := s.queries ++ [p.2], errors := s.errors ++ [p.1] }
  | .ok dets =>
      { s with conn := some s.opened, opened := s.opened + 1,
               queries := s.queries ++ [p.2],
               outputs := s.outputs ++ [(p.1, parse_detection_from_database dets)] }

/-- The whole fetch-and-draw phase: the loop over all
`(filename, mapping_index)` pairs, followed by
`if conn is not None: conn.close()`. -/
def runCorrelation (store : String → QueryOutcome)
    (pairs : List (String × String)) : CorrState :=
  let s := pairs.foldl (corrStep store) initCorrState
  match s.conn with
  | some c => { s with closedConns := s.closedConns ++ [c] }
  | none => s

/-- What one frame contributes to `outputs`: present iff its own store
query succeeded, and then carrying its own parsed detections. -/
def perFrameOut (store : String → QueryOutcome) (p : String × String) :
    Option (String × ParsedDetections) :=
  match store p.2 with
  | .ok dets => some (p.1, parse_detection_from_database dets)
  | _ => none

/-- What one frame contributes to the printed per-frame errors. -/
def perFrameErr (store : String → QueryOutcome) (p : String × String) :
    Option String :=
  match store p.2 with
  | .ok _ => none
  | _ => some p.1

/-- What one frame contributes to the executed store queries (none when
the connection attempt itself fails). -/
def perFrameQuery (store : String → QueryOutcome) (p : String × String) :
    Option String :=
  match store p.2 with
  | .connectFail => none
  | _ => some p.2

/-- Whether the frame's `psycopg2.connect` succeeded (a new connection was
opened for it). -/
def connSucc (store : String → QueryOutcome) (p : String × String) : Bool :=
  match store p.2 with
  | .connectFail => false
  | _ => true

/-! ### Sequencer/Assembler: `generate_video_from_frames` input -/

/-- The ordered frame sequence handed to video generation: the ffmpeg glob
`*.png` over the files written to the output directory, i.e. the written
filenames that end in `.png` and are not hidden, in sorted name order. -/
def outputSequence (st : CorrState) : List String :=
  pySorted ((st.outputs.map (fun o => o.1)).filter
    (fun f => endsWithPng f && !startsWithDot f))

/-- What one frame contributes to the final video sequence. -/
def perFrameVideo (store : String → QueryOutcome) (p : String × String) :
    Option String :=
  match store p.2 with
  | .ok _ => if endsWithPng p.1 && !startsWithDot p.1 then some p.1 else none
  | _ => none

/-! ### Batch submission loop -/

/-- Result of the `for files in tqdm(img_batch)` trigger loop: the batches
actually POSTed, the accumulated `data_mapping_indices`, and `some code`
when the loop called `sys.exit(code)`. -/
structure SubmissionResult where
  submitted : List (List String)
  indices : List String
  exit : Option Nat
deriving DecidableEq

/-- The trigger loop: POST each batch in order; on `status_code == 200`
append the response's `data_mapping_indices`, otherwise `sys.exit(1)`
(nothing after the failing batch is ever submitted). -/
def submitLoop (resp : List String → Nat × List String) :
    List (List String) → SubmissionResult
  | [] => ⟨[], [], none⟩
  | b :: bs =>
    if (resp b).1 = 200 then
      let rest := submitLoop resp bs
      ⟨b :: rest.submitted, (resp b).2 ++ rest.indices, rest.exit⟩
    else
      ⟨[b], [], some 1⟩

/-- A 2xx (success) HTTP status. -/
def is2xx (status : Nat) : Bool := 200 ≤ status && status < 300

/-! ### The whole run -/

/-- How the run ends: the submission loop called `sys.exit(code)`; the
`assert len(filenames) == len(data_mapping_indices)` failed (an uncaught
`AssertionError`, a non-zero exit); or the run completed, with the final
correlation-loop state when drawing was enabled (`some st`) and `none`
under `--skip-draw`. -/
inductive RunOutcome
  | submissionAbort (code : Nat)
  | assertFailure
  | completed (corr : Option CorrState)
deriving DecidableEq

/-- A trace of the run: the batches submitted, the seconds slept
(`time.sleep(10)` runs once, before the correlation loop), and the
outcome. -/
structure RunTrace where
  submitted : List (List String)
  sleptSeconds : Nat
  outcome : RunOutcome
deriving DecidableEq

/-- `batch_size = 1` is hardcoded in the script. -/
def batch_size : Nat := 1

/-- The single fixed `time.sleep(10)` before the correlation loop. -/
def sleepBeforeCorrelation : Nat := 10

/-- The `__main__` pipeline from frame listing onwards: list the frames,
batch them, run the trigger loop (exiting on the first non-200 response);
then, if drawing is enabled, sleep once, assert the aggregate count of
mapping indices against the flattened filename list, and run the
fetch-and-draw loop over `tzip(filenames, data_mapping_indices)`. -/
def mainRun (d : List DirEntry) (resp : List String → Nat × List String)
    (store : String → QueryOutcome) (draw : Bool) : RunTrace :=
  let files := img_files d
  let batches := img_batch batch_size files
  let filenames := batches.flatten
  let sub := submitLoop resp batches
  match sub.exit with
  | some code => ⟨sub.submitted, 0, .submissionAbort code⟩
  | none =>
    if draw then
      if filenames.length = sub.indices.length then
        ⟨sub.submitted, sleepBeforeCorrelation,
         .completed (some (runCorrelation store (filenames.zip sub.indices)))⟩
      else ⟨sub.submitted, sleepBeforeCorrelation, .assertFailure⟩
    else ⟨sub.submitted, 0, .completed none⟩

/-- The store queries the run executed (empty unless the run completed
with drawing enabled). -/
def correlationQueries : RunOutcome → List String
  | .completed (some st) => st.queries
  | _ => []

/-- The per-frame errors the run printed. -/
def runErrors : RunOutcome → List String
  | .completed (some st) => st.errors
  | _ => []

/-- The filenames the run wrote to the output directory. -/
def runOutputs : RunOutcome → List String
  | .completed (some st) => st.outputs.map (fun o => o.1)
  | _ => []

/-- Whether the run terminated normally (no `sys.exit`, no uncaught
exception). -/
def isCompleted : RunOutcome → Bool
  | .completed _ => true
  | _ => false

/-! ### Concrete inputs used in counterexamples and witnesses -/

/-- A directory with a single frame file. -/
def dOne : List DirEntry := [⟨"frame0.png", true⟩]

/-- A directory with two frame files. -/
def dTwo : List DirEntry := [⟨"a.png", true⟩, ⟨"b.png", true⟩]

/-- A directory with three frame files. -/
def dThree : List DirEntry := [⟨"f0.png", true⟩, ⟨"f1.png", true⟩, ⟨"f2.png", true⟩]

/-- A detection service answering 200 with one mapping index per batch. -/
def respOne : List String → Nat × List String := fun _ => (200, ["i0"])

/-- A detection service answering 200 with an empty mapping-index list. -/
def respEmpty : List String → Nat × List String := fun _ => (200, [])

/-- A detection service that answers 200 but returns two mapping indices
for the batch `["a.png"]` and zero for every other batch — a per-batch
protocol violation whose aggregate count happens to match. -/
def respSkew : List String → Nat × List String :=
  fun b => if b = ["a.png"] then (200, ["i0", "i1"]) else (200, [])

/-- A detection service that rejects the batch `["f1.png"]` with HTTP 500
and accepts every other batch. -/
def respFailMid : List String → Nat × List String :=
  fun b => if b = ["f1.png"] then (500, []) else (200, ["i0"])

/-- A results store in which every query succeeds (with zero
detections). -/
def storeAllOk : String → QueryOutcome := fun _ => QueryOutcome.ok []

/-- A results store in which no result is present yet. -/
def storeAllMissing : String → QueryOutcome := fun _ => QueryOutcome.rowMissing

/-- An unreachable results store: every connection attempt fails. -/
def storeDown : String → QueryOutcome := fun _ => QueryOutcome.connectFail

/-- A results store missing exactly the result for index `"i0"`. -/
def storeFirstMissing : String → QueryOutcome :=
  fun i => if i = "i0" then QueryOutcome.rowMissing else QueryOutcome.ok []

/-- Two (filename, mapping index) pairs. -/
def pairsTwo : List (String × String) := [("a.png", "i0"), ("b.png", "i1")]

/-! ### String-order lemmas -/

theorem lexLe_total (as bs : List Char) : lexLe as bs = true ∨ lexLe bs as = true := by
  induction as generalizing bs with
  | nil => left; rfl
  | cons a as ih =>
    cases bs with
    | nil => right; rfl
    | cons b bs =>
      by_cases h1 : a.toNat < b.toNat
      · left; simp only [lexLe]; rw [if_pos h1]
      · by_cases h2 : b.toNat < a.toNat
        · right; simp only [lexLe]; rw [if_pos h2]
        · rcases ih bs with h | h
          · left; simp only [lexLe]; rw [if_neg h1, if_neg h2]; exact h
          · right; simp only [lexLe]; rw [if_neg h2, if_neg h1]; exact h

theorem lexLe_trans {as bs cs : List Char} (h1 : lexLe as bs = true)
    (h2 : lexLe bs cs = true) : lexLe as cs = true := by
  induction as generalizing bs cs with
  | nil => rfl
  | cons a as ih =>
    cases bs with
    | nil => simp [lexLe] at h1
    | cons b bs =>
      cases cs with
      | nil => simp [lexLe] at h2
      | cons c cs =>
        simp only [lexLe] at h1 h2 ⊢
        by_cases hab : a.toNat < b.toNat
        · by_cases hbc : b.toNat < c.toNat
          · rw [if_pos (show a.toNat < c.toNat by omega)]
          · by_cases hcb : c.toNat < b.toNat
            · rw [if_neg hbc, if_pos hcb] at h2; exact absurd h2 (by simp)
            · rw [if_pos (show a.toNat < c.toNat by omega)]
        · by_cases hba : b.toNat < a.toNat
          · rw [if_neg hab, if_pos hba] at h1; exact absurd h1 (by simp)
          · by_cases hbc : b.toNat < c.toNat
            · rw [if_pos (show a.toNat < c.toNat by omega)]
            · by_cases hcb : c.toNat < b.toNat
              · rw [if_neg hbc, if_pos hcb] at h2; exact absurd h2 (by simp)
              · rw [if_neg hab, if_neg hba] at h1
                rw [if_neg hbc, if_neg hcb] at h2
                rw [if_neg (show ¬ a.toNat < c.toNat by omega),
                    if_neg (show ¬ c.toNat < a.toNat by omega)]
                exact ih h1 h2

theorem char_eq_of_toNat_eq {a b : Char} (h : a.toNat = b.toNat) : a = b :=
  Char.eq_of_val_eq (UInt32.eq_of_toBitVec_eq (BitVec.toNat_injective h))

theorem lexLe_antisymm {as bs : List Char} (h1 : lexLe as bs = true)
    (h2 : lexLe bs as = true) : as = bs := by
  induction as generalizing bs with
  | nil =>
    cases bs with
    | nil => rfl
    | cons b bs => simp [lexLe] at h2
  | cons a as ih =>
    cases bs with
    | nil => simp [lexLe] at h1
    | cons b bs =>
      simp only [lexLe] at h1 h2
      by_cases hab : a.toNat < b.toNat
      · rw [if_neg (show ¬ b.toNat < a.toNat by omega), if_pos hab] at h2
        exact absurd h2 (by simp)
      · by_cases hba : b.toNat < a.toNat
        · rw [if_neg hab, if_pos hba] at h1; exact absurd h1 (by simp)
        · have hchar : a = b := char_eq_of_toNat_eq (by omega)
          subst hchar
          rw [if_neg hab, if_neg hba] at h1
          rw [if_neg hba, if_neg hab] at h2
          exact congrArg (a :: ·) (ih h1 h2)

theorem pySorted_sorted (l : List String) :
    List.Sorted (fun a b => pyLe a b = true) (pySorted l) :=
  @List.sorted_insertionSort String (fun a b => pyLe a b = true) _
    ⟨fun a b => lexLe_total a.data b.data⟩
    ⟨fun _ _ _ h1 h2 => lexLe_trans h1 h2⟩ l

theorem pySorted_perm (l : List String) : (pySorted l).Perm l :=
  List.perm_insertionSort _ l

theorem pySorted_eq_self {l : List String}
    (h : List.Sorted (fun a b => pyLe a b = true) l) : pySorted l = l :=
  @List.eq_of_perm_of_sorted String (fun a b => pyLe a b = true)
    ⟨fun _ _ h1 h2 => String.ext (lexLe_antisymm h1 h2)⟩
    _ _ (pySorted_perm l) (pySorted_sorted l) h

theorem mem_pySorted {a : String} {l : List String} : a ∈ pySorted l ↔ a ∈ l :=
  (pySorted_perm l).mem_iff

/-! ### Frame-listing lemmas -/

theorem sorted_img_files (d : List DirEntry) :
    List.Sorted (fun a b => pyLe a b = true) (img_files d) :=
  List.Pairwise.filter _ (pySorted_sorted (d.map DirEntry.name))

theorem isfileIn_iff {d : List DirEntry} (hnd : (d.map DirEntry.name).Nodup)
    (f : String) :
    isfileIn d f = true ↔ ∃ e ∈ d, e.name = f ∧ e.isfile = true := by
  unfold isfileIn
  cases hfind : d.find? (fun e => e.name = f) with
  | none =>
    simp only [Bool.false_eq_true, false_iff]
    rintro ⟨e, he, hname, hfile⟩
    rw [List.find?_eq_none] at hfind
    exact absurd (by exact decide_eq_true hname) (hfind e he)
  | some e =>
    have hp := List.find?_some hfind
    have hname : e.name = f := of_decide_eq_true hp
    have hmem : e ∈ d := List.mem_of_find?_eq_some hfind
    constructor
    · intro hfile
      exact ⟨e, hmem, hname, hfile⟩
    · rintro ⟨e', he', hname', hfile'⟩
      have : e = e' := List.inj_on_of_nodup_map hnd hmem he' (by rw [hname, hname'])
      rw [this]
      exact hfile'

/-! ### Chunking lemmas -/

theorem chunkFuel_flatten {α : Type} (B : Nat) (hB : 1 ≤ B) :
    ∀ (fuel : Nat) (l : List α), l.length ≤ fuel →
      (chunkFuel fuel B l).flatten = l := by
  intro fuel
  induction fuel with
  | zero =>
    intro l h
    have : l = [] := List.eq_nil_of_length_eq_zero (Nat.le_zero.mp h)
    subst this; rfl
  | succ f ih =>
    intro l h
    cases l with
    | nil => rfl
    | cons a t =>
      have hdrop : t.drop (B - 1) = (a :: t).drop B := by
        cases B with
        | zero => omega
        | succ b => simp
      simp only [chunkFuel, List.flatten_cons]
      rw [ih (t.drop (B - 1)) (by simp only [List.length_drop]; simp at h; omega)]
      rw [hdrop, List.take_append_drop]

theorem chunkFuel_length {α : Type} (B : Nat) (hB : 1 ≤ B) :
    ∀ (fuel : Nat) (l : List α), l.length ≤ fuel →
      (chunkFuel fuel B l).length = (l.length + B - 1) / B := by
  intro fuel
  induction fuel with
  | zero =>
    intro l h
    have : l = [] := List.eq_nil_of_length_eq_zero (Nat.le_zero.mp h)
    subst this
    simp only [chunkFuel, List.length_nil]
    rw [Nat.div_eq_of_lt (by omega)]
  | succ f ih =>
    intro l h
    cases l with
    | nil =>
      simp only [chunkFuel, List.length_nil]
      rw [Nat.div_eq_of_lt (by omega)]
    | cons a t =>
      simp only [chunkFuel, List.length_cons]
      rw [ih (t.drop (B - 1)) (by simp only [List.length_drop]; simp at h; omega)]
      simp only [List.length_drop]
      have hB0 : 0 < B := hB
      have hnum : t.length + 1 + B - 1 = t.length + B := by omega
      rw [hnum, Nat.add_div_right _ hB0]
      rcases le_or_lt (B - 1) t.length with hle | hlt
      · have : t.length - (B - 1) + B - 1 = t.length := by omega
        rw [this]
      · have h0 : t.length - (B - 1) = 0 := by omega
        rw [h0]
        have : 0 + B - 1 = B - 1 := by omega
        rw [this, Nat.div_eq_of_lt (by omega), Nat.div_eq_of_lt (by omega)]

/-- C3: for every frame count `N ≥ 0` and batch size `B ≥ 1`, the submitter
produces exactly `ceil(N/B) = (N + B - 1) / B` batches, and concatenating
the batches in batch order yields exactly the `N` frames in original
order. -/
theorem img_batch_ceil_and_flatten {α : Type} (B : Nat) (hB : 1 ≤ B) (l : List α) :
    (img_batch B l).length = (l.length + B - 1) / B
    ∧ (img_batch B l).flatten = l :=
  ⟨chunkFuel_length B hB l.length l (Nat.le_refl _),
   chunkFuel_flatten B hB l.length l (Nat.le_refl _)⟩

/-- Witness for C3 at `B = 2` over five frames: three batches whose
concatenation is the original list. -/
theorem img_batch_ceil_and_flatten_witness :
    1 ≤ 2
    ∧ ((img_batch 2 ["a", "b", "c", "d", "e"]).length
          = ((["a", "b", "c", "d", "e"] : List String).length + 2 - 1) / 2
        ∧ (img_batch 2 ["a", "b", "c", "d", "e"]).flatten = ["a", "b", "c", "d", "e"]) :=
  ⟨by decide, img_batch_ceil_and_flatten 2 (by decide) ["a", "b", "c", "d", "e"]⟩

/-- C10: the frame sequence is exactly the regular, non-hidden files of the
input directory in lexicographically sorted name order; hidden entries and
non-files (e.g. subdirectories) are excluded.  Positions are the indices of
this list, and every later stage (submission, correlation, assembly) is fed
from it. -/
theorem img_files_sorted_and_members (d : List DirEntry)
    (hnd : (d.map DirEntry.name).Nodup) :
    List.Sorted (fun a b => pyLe a b = true) (img_files d)
    ∧ ∀ f : String, f ∈ img_files d ↔
        ((∃ e ∈ d, e.name = f ∧ e.isfile = true) ∧ startsWithDot f = false) := by
  refine ⟨sorted_img_files d, fun f => ?_⟩
  unfold img_files
  rw [List.mem_filter, mem_pySorted]
  constructor
  · rintro ⟨-, hp⟩
    rw [Bool.and_eq_true, Bool.not_eq_true'] at hp
    exact ⟨(isfileIn_iff hnd f).mp hp.1, hp.2⟩
  · rintro ⟨hex, hdot⟩
    refine ⟨?_, ?_⟩
    · rcases hex with ⟨e, he, hname, -⟩
      exact List.mem_map.mpr ⟨e, he, hname⟩
    · rw [Bool.and_eq_true, Bool.not_eq_true']
      exact ⟨(isfileIn_iff hnd f).mpr hex, hdot⟩

/-- Witness for C10 on a directory holding two regular frame files (listed
out of order), a hidden file and a subdirectory. -/
theorem img_files_sorted_and_members_witness :
    (([⟨"b.png", true⟩, ⟨".hidden.png", true⟩, ⟨"sub", false⟩,
       ⟨"a.png", true⟩] : List DirEntry).map DirEntry.name).Nodup
    ∧ (List.Sorted (fun a b => pyLe a b = true)
        (img_files [⟨"b.png", true⟩, ⟨".hidden.png", true⟩, ⟨"sub", false⟩, ⟨"a.png", true⟩])
      ∧ ∀ f : String,
          f ∈ img_files [⟨"b.png", true⟩, ⟨".hidden.png", true⟩, ⟨"sub", false⟩, ⟨"a.png", true⟩] ↔
            ((∃ e ∈ ([⟨"b.png", true⟩, ⟨".hidden.png", true⟩, ⟨"sub", false⟩,
                ⟨"a.png", true⟩] : List DirEntry), e.name = f ∧ e.isfile = true)
              ∧ startsWithDot f = false)) :=
  ⟨by decide,
   img_files_sorted_and_members
     [⟨"b.png", true⟩, ⟨".hidden.png", true⟩, ⟨"sub", false⟩, ⟨"a.png", true⟩]
     (by decide)⟩

/-! ### Correlation-loop characterization -/

theorem corrFoldl_opened (store : String → QueryOutcome)
    (pairs : List (String × String)) :
    ∀ s : CorrState, (pairs.foldl (corrStep store) s).opened
      = s.opened + pairs.countP (connSucc store) := by
  induction pairs with
  | nil => intro s; simp
  | cons p ps ih =>
    intro s
    rw [List.foldl_cons, ih, List.countP_cons]
    cases hq : store p.2 <;> simp [corrStep, connSucc, hq] <;> omega

theorem corrFoldl_closedConns (store : String → QueryOutcome)
    (pairs : List (String × String)) :
    ∀ s : CorrState, (pairs.foldl (corrStep store) s).closedConns = s.closedConns := by
  induction pairs with
  | nil => intro s; simp
  | cons p ps ih =>
    intro s
    rw [List.foldl_cons, ih]
    cases hq : store p.2 <;> simp [corrStep, hq]

theorem corrFoldl_conn_inv (store : String → QueryOutcome)
    (pairs : List (String × String)) :
    ∀ s : CorrState,
      s.conn = (if s.opened = 0 then none else some (s.opened - 1)) →
      (pairs.foldl (corrStep store) s).conn
        = (if (pairs.foldl (corrStep store) s).opened = 0 then none
           else some ((pairs.foldl (corrStep store) s).opened - 1)) := by
  induction pairs with
  | nil => intro s h; exact h
  | cons p ps ih =>
    intro s h
    rw [List.foldl_cons]
    apply ih
    cases hq : store p.2 <;> simp [corrStep, hq, h]

theorem corrFoldl_queries (store : String → QueryOutcome)
    (pairs : List (String × String)) :
    ∀ s : CorrState, (pairs.foldl (corrStep store) s).queries
      = s.queries ++ pairs.filterMap (perFrameQuery store) := by
  induction pairs with
  | nil => intro s; simp
  | cons p ps ih =>
    intro s
    rw [List.foldl_cons, ih, List.filterMap_cons]
    cases hq : store p.2 <;> simp [corrStep, perFrameQuery, hq]

theorem corrFoldl_outputs (store : String → QueryOutcome)
    (pairs : List (String × String)) :
    ∀ s : CorrState, (pairs.foldl (corrStep store) s).outputs
      = s.outputs ++ pairs.filterMap (perFrameOut store) := by
  induction pairs with
  | nil => intro s; simp
  | cons p ps ih =>
    intro s
    rw [List.foldl_cons, ih, List.filterMap_cons]
    cases hq : store p.2 <;> simp [corrStep, perFrameOut, hq]

theorem corrFoldl_errors (store : String → QueryOutcome)
    (pairs : List (String × String)) :
    ∀ s : CorrState, (pairs.foldl (corrStep store) s).errors
      = s.errors ++ pairs.filterMap (perFrameErr store) := by
  induction pairs with
  | nil => intro s; simp
  | cons p ps ih =>
    intro s
    rw [List.foldl_cons, ih, List.filterMap_cons]
    cases hq : store p.2 <;> simp [corrStep, perFrameErr, hq]

theorem runCorrelation_opened (store : String → QueryOutcome)
    (pairs : List (String × String)) :
    (runCorrelation store pairs).opened = pairs.countP (connSucc store) := by
  have hop := corrFoldl_opened store pairs initCorrState
  simp only [runCorrelation]
  split <;> simp_all [initCorrState]

theorem runCorrelation_queries (store : String → QueryOutcome)
    (pairs : List (String × String)) :
    (runCorrelation store pairs).queries = pairs.filterMap (perFrameQuery store) := by
  have h := corrFoldl_queries store pairs initCorrState
  simp only [runCorrelation]
  split <;> simp_all [initCorrState]

theorem runCorrelation_outputs (store : String → QueryOutcome)
    (pairs : List (String × String)) :
    (runCorrelation store pairs).outputs = pairs.filterMap (perFrameOut store) := by
  have h := corrFoldl_outputs store pairs initCorrState
  simp only [runCorrelation]
  split <;> simp_all [initCorrState]

theorem runCorrelation_errors (store : String → QueryOutcome)
    (pairs : List (String × String)) :
    (runCorrelation store pairs).errors = pairs.filterMap (perFrameErr store) := by
  have h := corrFoldl_errors store pairs initCorrState
  simp only [runCorrelation]
  split <;> simp_all [initCorrState]

theorem runCorrelation_closedConns (store : String → QueryOutcome)
    (pairs : List (String × String)) :
    (runCorrelation store pairs).closedConns
      = (if pairs.countP (connSucc store) = 0 then []
         else [pairs.countP (connSucc store) - 1]) := by
  have hop := corrFoldl_opened store pairs initCorrState
  have hconn := corrFoldl_conn_inv store pairs initCorrState (by rfl)
  have h00 : initCorrState.opened = 0 := rfl
  rw [hop] at hconn
  rw [h00, Nat.zero_add] at hconn
  have hcl0 : (pairs.foldl (corrStep store) initCorrState).closedConns = [] := by
    rw [corrFoldl_closedConns store pairs initCorrState]; rfl
  simp only [runCorrelation]
  by_cases h0 : pairs.countP (connSucc store) = 0
  · rw [if_pos h0]
    have hcn : (pairs.foldl (corrStep store) initCorrState).conn = none := by
      rw [hconn, if_pos h0]
    rw [hcn]
    exact hcl0
  · rw [if_neg h0]
    have hcn : (pairs.foldl (corrStep store) initCorrState).conn
        = some (pairs.countP (connSucc store) - 1) := by
      rw [hconn, if_neg h0]
    rw [hcn]
    simp [hcl0]

/-! ### Per-frame helper lemmas -/

theorem perFrameErr_of_out_none {store : String → QueryOutcome}
    {p : String × String} (h : perFrameOut store p = none) :
    perFrameErr store p = some p.1 := by
  unfold perFrameOut at h
  unfold perFrameErr
  cases hs : store p.2 <;> rw [hs] at h
  all_goals simp_all

theorem zip_map_fst_sublist {β : Type} (l : List String) (m : List β) :
    ((l.zip m).map Prod.fst).Sublist l := by
  induction l generalizing m with
  | nil => simp
  | cons a l ih =>
    cases m with
    | nil => simp
    | cons b m => simpa using List.Sublist.cons₂ a (ih m)

theorem filterMap_fst_sublist {β : Type} (g : String × β → Option String)
    (hg : ∀ p, g p = none ∨ g p = some p.1) :
    ∀ ps : List (String × β), (ps.filterMap g).Sublist (ps.map Prod.fst) := by
  intro ps
  induction ps with
  | nil => simp
  | cons p ps ih =>
    rw [List.filterMap_cons, List.map_cons]
    rcases hg p with h | h
    · rw [h]; exact ih.cons _
    · rw [h]; exact ih.cons₂ _

theorem perFrameVideo_none_or_fst (store : String → QueryOutcome)
    (p : String × String) :
    perFrameVideo store p = none ∨ perFrameVideo store p = some p.1 := by
  unfold perFrameVideo
  cases store p.2
  case ok dets =>
    by_cases hc : (endsWithPng p.1 && !startsWithDot p.1) = true
    · right; rw [if_pos hc]
    · left; rw [if_neg hc]
  all_goals left; rfl

theorem video_filter_characterization (store : String → QueryOutcome)
    (ps : List (String × String)) :
    ((ps.filterMap (perFrameOut store)).map (fun o => o.1)).filter
        (fun f => endsWithPng f && !startsWithDot f)
      = ps.filterMap (perFrameVideo store) := by
  induction ps with
  | nil => rfl
  | cons p ps ih =>
    cases hq : store p.2 with
    | ok dets =>
      by_cases hc : (endsWithPng p.1 && !startsWithDot p.1) = true
      · simp [List.filterMap_cons, perFrameOut, perFrameVideo, hq, hc, ih]
      · simp [List.filterMap_cons, perFrameOut, perFrameVideo, hq, hc, ih]
    | connectFail => simp [List.filterMap_cons, perFrameOut, perFrameVideo, hq, ih]
    | rowMissing => simp [List.filterMap_cons, perFrameOut, perFrameVideo, hq, ih]
    | malformed => simp [List.filterMap_cons, perFrameOut, perFrameVideo, hq, ih]

theorem filterMap_perFrameOut_connectFail (ps : List (String × String)) :
    ps.filterMap (perFrameOut storeDown) = [] := by
  induction ps with
  | nil => rfl
  | cons p ps ih => simp [List.filterMap_cons, perFrameOut, storeDown, ih]

theorem filterMap_perFrameErr_connectFail (ps : List (String × String)) :
    ps.filterMap (perFrameErr storeDown) = ps.map Prod.fst := by
  induction ps with
  | nil => rfl
  | cons p ps ih => simp [List.filterMap_cons, perFrameErr, storeDown, ih]

/-! ### Submission-loop lemmas -/

theorem submitLoop_abort (resp : List String → Nat × List String) :
    ∀ bs : List (List String), (∃ b ∈ bs, (resp b).1 ≠ 200) →
      (submitLoop resp bs).exit = some 1
      ∧ ∃ k, k < bs.length
          ∧ (submitLoop resp bs).submitted = bs.take (k + 1)
          ∧ (resp bs[k]!).1 ≠ 200 := by
  intro bs
  induction bs with
  | nil =>
    rintro ⟨b, hb, -⟩
    exact absurd hb (List.not_mem_nil b)
  | cons b bs ih =>
    rintro ⟨b', hb', hne⟩
    by_cases h200 : (resp b).1 = 200
    · have hb'bs : b' ∈ bs := by
        rcases List.mem_cons.mp hb' with rfl | h
        · exact absurd h200 hne
        · exact h
      obtain ⟨hexit, k, hk, hsub, hne'⟩ := ih ⟨b', hb'bs, hne⟩
      refine ⟨?_, k + 1, ?_, ?_, ?_⟩
      · simp [submitLoop, h200, hexit]
      · simpa using Nat.succ_lt_succ hk
      · simp [submitLoop, h200, hsub, List.take_succ_cons]
      · simpa using hne'
    · refine ⟨?_, 0, ?_, ?_, ?_⟩
      · simp [submitLoop, h200]
      · simp
      · simp [submitLoop, h200]
      · simpa using h200

/-! ### Claim theorems -/

/-- C1: for every directory, every mapping-index assignment and every
results-store behaviour (i.e. independently of the timing with which the
store produced each frame's result), the final OutputSequence handed to
video generation is exactly the per-frame video contributions of the
frames, in original frame order — in particular it is sorted in frame-name
order, and frame names index positions, so the sequence is ordered by
original position. -/
theorem output_sequence_in_position_order (d : List DirEntry)
    (idxs : List String) (store : String → QueryOutcome) :
    outputSequence (runCorrelation store ((img_files d).zip idxs))
        = ((img_files d).zip idxs).filterMap (perFrameVideo store)
    ∧ List.Sorted (fun a b => pyLe a b = true)
        (outputSequence (runCorrelation store ((img_files d).zip idxs))) := by
  have houts := runCorrelation_outputs store ((img_files d).zip idxs)
  have hchar := video_filter_characterization store ((img_files d).zip idxs)
  have hsub : (((img_files d).zip idxs).filterMap (perFrameVideo store)).Sublist
      (img_files d) :=
    (filterMap_fst_sublist (perFrameVideo store) (perFrameVideo_none_or_fst store)
      ((img_files d).zip idxs)).trans (zip_map_fst_sublist (img_files d) idxs)
  have hsorted : List.Sorted (fun a b => pyLe a b = true)
      (((img_files d).zip idxs).filterMap (perFrameVideo store)) :=
    List.Pairwise.sublist hsub (sorted_img_files d)
  have hseq : outputSequence (runCorrelation store ((img_files d).zip idxs))
      = ((img_files d).zip idxs).filterMap (perFrameVideo store) := by
    unfold outputSequence
    rw [houts, hchar, pySorted_eq_self hsorted]
  exact ⟨hseq, by rw [hseq]; exact hsorted⟩

/-- C6: correlation is processed per frame: over the whole loop, each
frame's contribution to the written outputs and to the printed per-frame
errors is a function of that frame's own store outcome alone, every frame
is processed (no failure aborts or blocks the loop), and no other frame's
result is altered by a failure elsewhere. -/
theorem correlation_per_frame_independent (store : String → QueryOutcome)
    (pairs : List (String × String)) :
    (runCorrelation store pairs).outputs = pairs.filterMap (perFrameOut store)
    ∧ (runCorrelation store pairs).errors = pairs.filterMap (perFrameErr store)
    ∧ (runCorrelation store pairs).queries = pairs.filterMap (perFrameQuery store) :=
  ⟨runCorrelation_outputs store pairs, runCorrelation_errors store pairs,
    runCorrelation_queries store pairs⟩

/-- C9 counterexample: with two frames whose store queries both succeed,
two connections are opened but only the last one (`conn.close()` after the
loop closes the connection held by the variable `conn`) is ever released:
connection `0` is acquired and never released, refuting the claim that
every acquired connection is released at the end of the run. -/
theorem connection_leak_counterexample :
    (runCorrelation storeAllOk pairsTwo).opened = 2
    ∧ (runCorrelation storeAllOk pairsTwo).closedConns = [1]
    ∧ 0 ∉ (runCorrelation storeAllOk pairsTwo).closedConns := by
  decide

/-- C9 amended: a fresh connection is opened for every frame whose
`psycopg2.connect` succeeds; the per-query scope never closes it (only the
cursor is closed on the success path, nothing on the exception path), and
at run end only the most recently opened connection — the one still held
by the `conn` variable — is closed.  Hence exactly `min 1 opened`
connections are ever explicitly released. -/
theorem connections_only_last_closed (store : String → QueryOutcome)
    (pairs : List (String × String)) :
    (runCorrelation store pairs).opened = pairs.countP (connSucc store)
    ∧ (runCorrelation store pairs).closedConns
        = (if pairs.countP (connSucc store) = 0 then []
           else [pairs.countP (connSucc store) - 1]) :=
  ⟨runCorrelation_opened store pairs, runCorrelation_closedConns store pairs⟩

/-- C2 counterexample: frame `"a.png"` at position 0 permanently fails
(row missing) while frame `"b.png"` at position 1 succeeds.  The final
OutputSequence is `["b.png"]`: there is no entry (pass-through or gap
marker) at position 0, and the position-1 frame has shifted into the first
slot of the sequence — the failed frame is silently omitted from the
output. -/
theorem failed_frame_omitted_counterexample :
    storeFirstMissing "i0" = QueryOutcome.rowMissing
    ∧ outputSequence (runCorrelation storeFirstMissing
        ((img_files dTwo).zip ["i0", "i1"])) = ["b.png"]
    ∧ "a.png" ∉ outputSequence (runCorrelation storeFirstMissing
        ((img_files dTwo).zip ["i0", "i1"])) := by
  decide

/-- C2 amended: a frame whose correlation permanently fails is reported
per-frame (its exception is printed) but contributes no entry to the
OutputSequence at all — it is omitted, so the assembled sequence is
shorter and later frames shift earlier; no pass-through entry or in-band
gap marker is produced. -/
theorem failed_frame_reported_and_omitted (store : String → QueryOutcome)
    (d : List DirEntry) (idxs : List String)
    (hnd : (img_files d).Nodup) (p : String × String)
    (hp : p ∈ (img_files d).zip idxs)
    (hfail : perFrameOut store p = none) :
    p.1 ∈ (runCorrelation store ((img_files d).zip idxs)).errors
    ∧ p.1 ∉ outputSequence (runCorrelation store ((img_files d).zip idxs)) := by
  constructor
  · rw [runCorrelation_errors]
    exact List.mem_filterMap.mpr ⟨p, hp, perFrameErr_of_out_none hfail⟩
  · intro hmem
    unfold outputSequence at hmem
    rw [mem_pySorted, List.mem_filter] at hmem
    obtain ⟨hmem1, -⟩ := hmem
    rw [runCorrelation_outputs, List.mem_map] at hmem1
    obtain ⟨o, ho, hofst⟩ := hmem1
    rw [List.mem_filterMap] at ho
    obtain ⟨q, hq, hqo⟩ := ho
    have hq1 : o.1 = q.1 := by
      unfold perFrameOut at hqo
      cases hs : store q.2 <;> rw [hs] at hqo
      case ok dets =>
        injection hqo with h
        rw [← h]
      all_goals simp at hqo
    have hfst : q.1 = p.1 := by rw [← hq1, hofst]
    have hndp : (((img_files d).zip idxs).map Prod.fst).Nodup :=
      List.Nodup.sublist (zip_map_fst_sublist _ _) hnd
    have hqp : q = p := List.inj_on_of_nodup_map hndp hq hp hfst
    rw [hqp, hfail] at hqo
    exact absurd hqo (by simp)

/-- Witness for the amended C2 at the counterexample input: the failed
frame `"a.png"` is reported in the printed errors and absent from the
OutputSequence. -/
theorem failed_frame_reported_and_omitted_witness :
    (img_files dTwo).Nodup
    ∧ ("a.png", "i0") ∈ (img_files dTwo).zip ["i0", "i1"]
    ∧ perFrameOut storeFirstMissing ("a.png", "i0") = none
    ∧ ("a.png" ∈ (runCorrelation storeFirstMissing
          ((img_files dTwo).zip ["i0", "i1"])).errors
      ∧ "a.png" ∉ outputSequence (runCorrelation storeFirstMissing
          ((img_files dTwo).zip ["i0", "i1"]))) :=
  ⟨by decide, by decide, by decide,
   failed_frame_reported_and_omitted storeFirstMissing dTwo ["i0", "i1"]
     (by decide) ("a.png", "i0") (by decide) (by decide)⟩

/-- C4 counterexample: batch `["a.png"]` receives two mapping indices for
its single file and batch `["b.png"]` receives zero — per-batch protocol
violations — yet the aggregate count (2 files, 2 indices) satisfies the
script's only check, the assert passes, and the run proceeds to execute
two correlation queries instead of failing before any correlation
attempt. -/
theorem aggregate_assert_misses_batch_mismatch :
    (∃ b ∈ img_batch batch_size (img_files dTwo), (respSkew b).2.length ≠ b.length)
    ∧ correlationQueries (mainRun dTwo respSkew storeAllMissing true).outcome
        = ["i0", "i1"] := by
  decide

theorem mainRun_exit_none_draw (d : List DirEntry)
    (resp : List String → Nat × List String) (store : String → QueryOutcome)
    (hexit : (submitLoop resp (img_batch batch_size (img_files d))).exit = none) :
    mainRun d resp store true =
      (if ((img_batch batch_size (img_files d)).flatten).length
          = (submitLoop resp (img_batch batch_size (img_files d))).indices.length then
        ⟨(submitLoop resp (img_batch batch_size (img_files d))).submitted,
          sleepBeforeCorrelation,
          RunOutcome.completed (some (runCorrelation store
            (((img_batch batch_size (img_files d)).flatten).zip
              (submitLoop resp (img_batch batch_size (img_files d))).indices)))⟩
      else ⟨(submitLoop resp (img_batch batch_size (img_files d))).submitted,
            sleepBeforeCorrelation, RunOutcome.assertFailure⟩) := by
  simp only [mainRun]
  rw [hexit]
  rfl

/-- C4 amended: the script checks only the aggregate, and only when
drawing is enabled: if the total number of mapping indices differs from
the total number of submitted filenames, the run dies on the
`assert` (before any correlation attempt); a per-batch mismatch that
preserves the total is not detected. -/
theorem aggregate_assert_checks_total_count (d : List DirEntry)
    (resp : List String → Nat × List String) (store : String → QueryOutcome)
    (hexit : (submitLoop resp (img_batch batch_size (img_files d))).exit = none)
    (hlen : ((img_batch batch_size (img_files d)).flatten).length
        ≠ (submitLoop resp (img_batch batch_size (img_files d))).indices.length) :
    (mainRun d resp store true).outcome = RunOutcome.assertFailure := by
  rw [mainRun_exit_none_draw d resp store hexit, if_neg hlen]

/-- Witness for the amended C4: one file, a service returning zero mapping
indices with status 200 — the aggregate assert fails before correlation. -/
theorem aggregate_assert_checks_total_count_witness :
    ((submitLoop respEmpty (img_batch batch_size (img_files dOne))).exit = none)
    ∧ (((img_batch batch_size (img_files dOne)).flatten).length
        ≠ (submitLoop respEmpty (img_batch batch_size (img_files dOne))).indices.length)
    ∧ (mainRun dOne respEmpty storeAllMissing true).outcome = RunOutcome.assertFailure :=
  ⟨by decide, by decide,
   aggregate_assert_checks_total_count dOne respEmpty storeAllMissing
     (by decide) (by decide)⟩

/-- C5: if any batch's response is non-2xx, the run aborts with
`sys.exit(1)`: the outcome is a submission abort with exit code 1, and the
submitted batches form the prefix of the batch list up to and including
the first failing batch — no later batch is ever submitted. -/
theorem submission_failure_aborts_run (d : List DirEntry)
    (resp : List String → Nat × List String) (store : String → QueryOutcome)
    (draw : Bool)
    (h : ∃ b ∈ img_batch batch_size (img_files d), is2xx (resp b).1 = false) :
    (mainRun d resp store draw).outcome = RunOutcome.submissionAbort 1
    ∧ ∃ k, k < (img_batch batch_size (img_files d)).length
        ∧ (mainRun d resp store draw).submitted
            = (img_batch batch_size (img_files d)).take (k + 1)
        ∧ (resp (img_batch batch_size (img_files d))[k]!).1 ≠ 200 := by
  have hne : ∃ b ∈ img_batch batch_size (img_files d), (resp b).1 ≠ 200 := by
    obtain ⟨b, hb, h2⟩ := h
    refine ⟨b, hb, fun h200 => ?_⟩
    rw [h200] at h2
    simp [is2xx] at h2
  obtain ⟨hexit, k, hk, hsub, hne'⟩ :=
    submitLoop_abort resp (img_batch batch_size (img_files d)) hne
  refine ⟨?_, k, hk, ?_, hne'⟩
  · simp only [mainRun]
    rw [hexit]
  · simp only [mainRun]
    rw [hexit]
    exact hsub

/-- Witness for C5: three one-frame batches, the second rejected with
HTTP 500 — the run aborts with exit code 1 after submitting exactly the
first two batches. -/
theorem submission_failure_aborts_run_witness :
    (∃ b ∈ img_batch batch_size (img_files dThree), is2xx (respFailMid b).1 = false)
    ∧ ((mainRun dThree respFailMid storeAllMissing true).outcome
          = RunOutcome.submissionAbort 1
      ∧ ∃ k, k < (img_batch batch_size (img_files dThree)).length
          ∧ (mainRun dThree respFailMid storeAllMissing true).submitted
              = (img_batch batch_size (img_files dThree)).take (k + 1)
          ∧ (respFailMid (img_batch batch_size (img_files dThree))[k]!).1 ≠ 200) :=
  ⟨by decide,
   submission_failure_aborts_run dThree respFailMid storeAllMissing true (by decide)⟩

/-- C7 counterexample: the results store is unreachable for every query,
yet the run completes normally (no fatal termination, no non-zero exit):
each connection failure is caught by the per-frame `except`, the frame's
error is printed, and the loop carries on to the end with nothing
written. -/
theorem store_unreachable_counterexample :
    isCompleted (mainRun dOne respOne storeDown true).outcome = true
    ∧ runErrors (mainRun dOne respOne storeDown true).outcome = ["frame0.png"]
    ∧ runOutputs (mainRun dOne respOne storeDown true).outcome = [] := by
  decide

/-- C7 amended: when the results store is unreachable, every frame's
connection attempt fails and is caught per-frame: the run continues
through all frames and terminates normally, printing an error for every
frame and writing no annotated frame at all. -/
theorem store_unreachable_run_continues (d : List DirEntry)
    (resp : List String → Nat × List String)
    (hexit : (submitLoop resp (img_batch batch_size (img_files d))).exit = none)
    (hlen : ((img_batch batch_size (img_files d)).flatten).length
        = (submitLoop resp (img_batch batch_size (img_files d))).indices.length) :
    isCompleted (mainRun d resp storeDown true).outcome = true
    ∧ runOutputs (mainRun d resp storeDown true).outcome = []
    ∧ runErrors (mainRun d resp storeDown true).outcome
        = (((img_batch batch_size (img_files d)).flatten).zip
            (submitLoop resp (img_batch batch_size (img_files d))).indices).map
              Prod.fst := by
  have hout : (mainRun d resp storeDown true).outcome
      = RunOutcome.completed (some (runCorrelation storeDown
          (((img_batch batch_size (img_files d)).flatten).zip
            (submitLoop resp (img_batch batch_size (img_files d))).indices))) := by
    simp only [mainRun]
    rw [hexit]
    simp [hlen]
  rw [hout]
  refine ⟨rfl, ?_, ?_⟩
  · simp only [runOutputs]
    rw [runCorrelation_outputs, filterMap_perFrameOut_connectFail]
    rfl
  · simp only [runErrors]
    rw [runCorrelation_errors, filterMap_perFrameErr_connectFail]

/-- Witness for the amended C7 on a single frame. -/
theorem store_unreachable_run_continues_witness :
    ((submitLoop respOne (img_batch batch_size (img_files dOne))).exit = none)
    ∧ (((img_batch batch_size (img_files dOne)).flatten).length
        = (submitLoop respOne (img_batch batch_size (img_files dOne))).indices.length)
    ∧ (isCompleted (mainRun dOne respOne storeDown true).outcome = true
      ∧ runOutputs (mainRun dOne respOne storeDown true).outcome = []
      ∧ runErrors (mainRun dOne respOne storeDown true).outcome
          = (((img_batch batch_size (img_files dOne)).flatten).zip
              (submitLoop respOne (img_batch batch_size (img_files dOne))).indices).map
                Prod.fst) :=
  ⟨by decide, by decide,
   store_unreachable_run_continues dOne respOne (by decide) (by decide)⟩

/-- C8 counterexample: the frame's result is not yet present in the store;
the correlator issues exactly one query for it — the query trace of the
whole run is `["i0"]` — and immediately downgrades the frame to a
per-frame failure.  There is no per-frame wait-and-retry loop (the only
wait in the script is the single fixed 10-second sleep before the loop,
visible as `sleptSeconds = 10`). -/
theorem no_retry_counterexample :
    correlationQueries (mainRun dOne respOne storeAllMissing true).outcome = ["i0"]
    ∧ runErrors (mainRun dOne respOne storeAllMissing true).outcome = ["frame0.png"]
    ∧ runOutputs (mainRun dOne respOne storeAllMissing true).outcome = []
    ∧ (mainRun dOne respOne storeAllMissing true).sleptSeconds = 10 := by
  decide

/-- C8 amended: the correlator sleeps once for a fixed 10 seconds before
the loop, then queries each frame's mapping index exactly once (the query
trace equals the per-frame query contributions in order); a frame whose
result is missing at that single attempt is immediately reported as a
per-frame, non-fatal failure — there are no retries, so in particular the
loop never hangs. -/
theorem single_query_then_downgrade (store : String → QueryOutcome)
    (pairs : List (String × String)) (p : String × String)
    (hp : p ∈ pairs) (hmiss : store p.2 = QueryOutcome.rowMissing) :
    (runCorrelation store pairs).queries = pairs.filterMap (perFrameQuery store)
    ∧ sleepBeforeCorrelation = 10
    ∧ p.1 ∈ (runCorrelation store pairs).errors := by
  refine ⟨runCorrelation_queries store pairs, rfl, ?_⟩
  rw [runCorrelation_errors]
  refine List.mem_filterMap.mpr ⟨p, hp, ?_⟩
  unfold perFrameErr
  rw [hmiss]

/-- Witness for the amended C8 on a single missing frame. -/
theorem single_query_then_downgrade_witness :
    ("frame0.png", "i0") ∈ ([("frame0.png", "i0")] : List (String × String))
    ∧ storeAllMissing "i0" = QueryOutcome.rowMissing
    ∧ ((runCorrelation storeAllMissing [("frame0.png", "i0")]).queries
          = [("frame0.png", "i0")].filterMap (perFrameQuery storeAllMissing)
        ∧ sleepBeforeCorrelation = 10
        ∧ "frame0.png" ∈ (runCorrelation storeAllMissing [("frame0.png", "i0")]).errors) :=
  ⟨by decide, by decide,
   single_query_then_downgrade storeAllMissing [("frame0.png", "i0")]
     ("frame0.png", "i0") (by decide) (by decide)⟩
